import Mathlib

/-!
Shallow embedding of the Edge Impulse inference bridge of the
plastiwatch repository: the Rust-FFI wrapper (signal read callback,
classifier invocation adapter, result extractor) and the ESP-IDF
porting layer (`ei_sleep`, `ei_printf`).

Pointers are modelled by `Option` (with `none` for the null pointer)
or by an explicit nullness flag when the pointee is opaque; buffers
are lists of samples; `size_t` arithmetic wraps modulo `2 ^ 32`
(the ESP32-C3 target is RV32/ILP32, so `size_t` is 32 bits wide).
The sample type is an arbitrary type `α` since the bridge only moves
samples around and never computes with them.
-/

/-- Width of `size_t` in bits on the ESP32-C3 (RV32, ILP32) target. -/
def SIZE_T_BITS : Nat := 32

/-- Compile-time input frame size `EI_CLASSIFIER_DSP_INPUT_FRAME_SIZE`
(375, as documented in the wrapper header). -/
def EI_CLASSIFIER_DSP_INPUT_FRAME_SIZE : Nat := 375

/-- Compile-time label count `EI_CLASSIFIER_LABEL_COUNT`
(4, as documented in the wrapper header). -/
def EI_CLASSIFIER_LABEL_COUNT : Nat := 4

/-- The OK sentinel of the runtime's `EI_IMPULSE_ERROR` enumeration:
`EI_IMPULSE_OK`, value `0` in the SDK headers. -/
def EI_IMPULSE_OK : Int := 0

/-- The pair of thread-local variables of the wrapper:
`g_current_signal_data` (null when no Per-Call Context is active) and
`g_current_signal_size`. -/
structure SignalCtx (α : Type) where
  data : Option (List α)
  size : Nat
  deriving Repr, DecidableEq

/-- Effect of `memcpy(dest, src, src.length * sizeof(sample))` on a
destination buffer viewed as a list: the first `src.length` cells of
`dest` are overwritten with `src`, the rest keep their contents. -/
def copyInto {α : Type} (dest src : List α) : List α :=
  src ++ dest.drop src.length

/-- Return value and post-state of one invocation of the signal read
callback: the C `int` status, the thread-local context after the call,
and the contents of the destination buffer after the call. -/
structure CallbackResult (α : Type) where
  status : Int
  ctx : SignalCtx α
  dest : List α
  deriving Repr, DecidableEq

/-- `signal_get_data_callback(offset, length, out_ptr)` from the wrapper,
in state-passing form: `ctx` is the thread-local context on entry and
`dest` the destination buffer on entry.  The source checks
`g_current_signal_data == nullptr`, then `offset + length >
g_current_signal_size` (a `size_t` sum, hence reduced modulo
`2 ^ SIZE_T_BITS`), and otherwise performs
`memcpy(out_ptr, g_current_signal_data + offset, length * sizeof(float))`.
The source never assigns the thread-locals, so every branch returns
`ctx` unchanged. -/
def signal_get_data_callback {α : Type} (ctx : SignalCtx α) (offset length : Nat)
    (dest : List α) : CallbackResult α :=
  match ctx.data with
  | none => ⟨-1, ctx, dest⟩
  | some buf =>
    if (offset + length) % 2 ^ SIZE_T_BITS > ctx.size then
      ⟨-1, ctx, dest⟩
    else
      ⟨0, ctx, copyInto dest ((buf.drop offset).take length)⟩

/-- Observable outcome of one call to `ei_run_classifier_ffi`:
the returned status, the thread-local context after the call,
how many calls were made into the external `run_classifier`
entry point, and which context (if any) was installed for that call. -/
structure FfiResult (α : Type) where
  status : Int
  ctxAfter : SignalCtx α
  runtimeCalls : Nat
  installed : Option (SignalCtx α)
  deriving Repr, DecidableEq

/-- `ei_run_classifier_ffi(features, result, debug)` from the wrapper.
`features` is the feature-buffer pointer (`none` = null), `resultNull`
says whether the result pointer is null (the result structure itself is
opaque here: the runtime writes it, the wrapper only passes it through),
and `ctx` is the thread-local context on entry.  The external
`run_classifier` is an opaque collaborator; `runtimeErr` is the
`EI_IMPULSE_ERROR` value it returns when invoked.  The source: null-checks
both pointers, installs `g_current_signal_data = features` and
`g_current_signal_size = EI_CLASSIFIER_DSP_INPUT_FRAME_SIZE`, builds a
signal handle with that total length and the callback, calls
`run_classifier`, clears both thread-locals, and returns
`err == EI_IMPULSE_OK ? 0 : -1`. -/
def ei_run_classifier_ffi {α : Type} (runtimeErr : Int) (features : Option (List α))
    (resultNull : Bool) (debug : Int) (ctx : SignalCtx α) : FfiResult α :=
  match features with
  | none => ⟨-1, ctx, 0, none⟩
  | some buf =>
    if resultNull then ⟨-1, ctx, 0, none⟩
    else
      let installed : SignalCtx α :=
        { data := some buf, size := EI_CLASSIFIER_DSP_INPUT_FRAME_SIZE }
      { status := if runtimeErr = EI_IMPULSE_OK then 0 else -1
        ctxAfter := { data := none, size := 0 }
        runtimeCalls := 1
        installed := some installed }

/-- One entry of the `classification` array of `ei_impulse_result_t`;
the wrapper reads only its `value` field. -/
structure EiClassificationEntry (α : Type) where
  value : α
  deriving Repr, DecidableEq

/-- The slice of the opaque `ei_impulse_result_t` the wrapper accesses:
the per-label `classification` array, indexed by label number. -/
structure EiImpulseResult (α : Type) where
  classification : Nat → EiClassificationEntry α

/-- `ei_get_classification_values(result, out_values)` from the wrapper:
null-checks both pointers, then copies
`result->classification[i].value` into `out_values[i]` for
`i < EI_CLASSIFIER_LABEL_COUNT` and returns 0.  `out` is the contents of
the caller's output array on entry; the returned list is its contents
on exit. -/
def ei_get_classification_values {α : Type} (result : Option (EiImpulseResult α))
    (outNull : Bool) (out : List α) : Int × List α :=
  match result with
  | none => (-1, out)
  | some r =>
    if outNull then (-1, out)
    else
      (0, copyInto out ((List.range EI_CLASSIFIER_LABEL_COUNT).map
            fun i => (r.classification i).value))

/-- `ei_sleep(time_ms)` from the porting layer: returns the
`EI_IMPULSE_ERROR` status together with the number of `vTaskDelay`
invocations performed.  The source returns `EI_IMPULSE_OK` at once for a
negative duration and otherwise calls `vTaskDelay(pdMS_TO_TICKS(time_ms))`
once before returning `EI_IMPULSE_OK`. -/
def ei_sleep (time_ms : Int) : Int × Nat :=
  if time_ms < 0 then (EI_IMPULSE_OK, 0)
  else (EI_IMPULSE_OK, 1)

/-- Size of the stack buffer in `ei_printf` (`char buffer[256]`). -/
def EI_PRINTF_BUFSIZE : Nat := 256

/-- `ei_printf` from the porting layer.  `msg` is the fully formatted
message; `vsnprintf` reports its untruncated length `len` and fills the
buffer with its first `EI_PRINTF_BUFSIZE - 1` characters plus a
terminator.  The source logs the buffer via `ESP_LOGI` only when
`len > 0 && len < (int)sizeof(buffer)`.  Returns `some logged` when
`ESP_LOGI` is reached with buffer contents `logged`, and `none` when
nothing is logged. -/
def ei_printf (msg : List Char) : Option (List Char) :=
  let len := msg.length
  if 0 < len ∧ len < EI_PRINTF_BUFSIZE then
    some (msg.take (EI_PRINTF_BUFSIZE - 1))
  else
    none

/-- Reduction of the callback when a context is active: the bounds check
against the thread-local size decides between failure and the copy. -/
theorem signal_get_data_callback_some {α : Type} (buf : List α) (size offset length : Nat)
    (dest : List α) :
    signal_get_data_callback (⟨some buf, size⟩ : SignalCtx α) offset length dest =
      if (offset + length) % 2 ^ SIZE_T_BITS > size then
        ⟨-1, ⟨some buf, size⟩, dest⟩
      else
        ⟨0, ⟨some buf, size⟩, copyInto dest ((buf.drop offset).take length)⟩ := rfl

/-- C1: the spec claims that every pull request with
`offset + length > declaredLength` is rejected before any memory access.
The source computes `offset + length` in `size_t` arithmetic, which wraps:
at `offset = 2 ^ 32 - 1`, `length = 2` the sum wraps to `1`, the bounds
check passes, and the callback reports success (and proceeds to `memcpy`
out of bounds) instead of returning the error sentinel. -/
theorem signal_callback_bounds_check_wraps :
    (2 ^ 32 - 1) + 2 > EI_CLASSIFIER_DSP_INPUT_FRAME_SIZE ∧
    (signal_get_data_callback
        (⟨some (List.replicate 375 (0 : Nat)), EI_CLASSIFIER_DSP_INPUT_FRAME_SIZE⟩ :
          SignalCtx Nat)
        (2 ^ 32 - 1) 2 [5, 5]).status = 0 := by
  exact ⟨by decide, by decide⟩

/-- C2: with a non-null feature buffer and a non-null result pointer,
whatever outcome the external runtime reports, `ei_run_classifier_ffi`
leaves no context installed: afterwards the thread-local data pointer is
null and the thread-local size is 0. -/
theorem classifier_ffi_clears_context {α : Type} (runtimeErr : Int) (buf : List α)
    (debug : Int) (ctx : SignalCtx α) :
    (ei_run_classifier_ffi runtimeErr (some buf) false debug ctx).ctxAfter.data = none ∧
    (ei_run_classifier_ffi runtimeErr (some buf) false debug ctx).ctxAfter.size = 0 :=
  ⟨rfl, rfl⟩

/-- C3: while a context binding a buffer of the declared frame size is
active, an in-bounds pull request (`offset + length` at most the declared
length) succeeds and copies exactly `length` samples starting at `offset`:
entry `i` of the destination equals entry `offset + i` of the buffer, and
the destination beyond `length` is unchanged. -/
theorem signal_callback_copies_slice {α : Type} (buf dest : List α) (offset length : Nat)
    (hbuf : buf.length = EI_CLASSIFIER_DSP_INPUT_FRAME_SIZE)
    (hin : offset + length ≤ EI_CLASSIFIER_DSP_INPUT_FRAME_SIZE) :
    (signal_get_data_callback (⟨some buf, EI_CLASSIFIER_DSP_INPUT_FRAME_SIZE⟩ : SignalCtx α)
        offset length dest).status = 0 ∧
    (∀ i, i < length →
      ((signal_get_data_callback (⟨some buf, EI_CLASSIFIER_DSP_INPUT_FRAME_SIZE⟩ : SignalCtx α)
          offset length dest).dest)[i]? = buf[offset + i]?) ∧
    ((signal_get_data_callback (⟨some buf, EI_CLASSIFIER_DSP_INPUT_FRAME_SIZE⟩ : SignalCtx α)
        offset length dest).dest).drop length = dest.drop length := by
  have hcond : ¬ (offset + length) % 2 ^ SIZE_T_BITS > EI_CLASSIFIER_DSP_INPUT_FRAME_SIZE := by
    have h1 : (offset + length) % 2 ^ SIZE_T_BITS ≤ offset + length := Nat.mod_le _ _
    omega
  have hred := signal_get_data_callback_some buf EI_CLASSIFIER_DSP_INPUT_FRAME_SIZE
    offset length dest
  rw [if_neg hcond] at hred
  have hsrc : ((buf.drop offset).take length).length = length := by
    simp only [List.length_take, List.length_drop]
    omega
  refine ⟨by rw [hred], fun i hi => ?_, ?_⟩
  · rw [hred]
    show (((buf.drop offset).take length) ++
        dest.drop ((buf.drop offset).take length).length)[i]? = buf[offset + i]?
    rw [List.getElem?_append_left (by rw [hsrc]; exact hi)]
    rw [List.getElem?_take_of_lt hi, List.getElem?_drop]
  · rw [hred]
    show ((((buf.drop offset).take length) ++
        dest.drop ((buf.drop offset).take length).length).drop length) = dest.drop length
    rw [List.drop_left' hsrc, hsrc]

set_option maxRecDepth 8000 in
/-- Witness for C3: a concrete in-bounds pull request against a 375-sample
buffer copies the requested slice. -/
theorem signal_callback_copies_slice_witness :
    (List.range 375).length = EI_CLASSIFIER_DSP_INPUT_FRAME_SIZE ∧
    100 + 3 ≤ EI_CLASSIFIER_DSP_INPUT_FRAME_SIZE ∧
    (signal_get_data_callback
        (⟨some (List.range 375), EI_CLASSIFIER_DSP_INPUT_FRAME_SIZE⟩ : SignalCtx Nat)
        100 3 [0, 0, 0]).dest[0]? = some 100 := by
  refine ⟨by decide, by decide, ?_⟩
  have h := (signal_callback_copies_slice (List.range 375) [0, 0, 0] 100 3
    (by decide) (by decide)).2.1 0 (by decide)
  rw [h]
  decide

/-- C4: a null feature-buffer pointer or a null result pointer makes
`ei_run_classifier_ffi` fail immediately: status is -1, the thread-local
context is unchanged, no call into the external runtime is made and no
context is installed. -/
theorem classifier_ffi_null_args {α : Type} (runtimeErr : Int) (features : Option (List α))
    (resultNull : Bool) (debug : Int) (ctx : SignalCtx α)
    (h : features = none ∨ resultNull = true) :
    (ei_run_classifier_ffi runtimeErr features resultNull debug ctx).status = -1 ∧
    (ei_run_classifier_ffi runtimeErr features resultNull debug ctx).ctxAfter = ctx ∧
    (ei_run_classifier_ffi runtimeErr features resultNull debug ctx).runtimeCalls = 0 ∧
    (ei_run_classifier_ffi runtimeErr features resultNull debug ctx).installed = none := by
  rcases h with h | h
  · subst h
    exact ⟨rfl, rfl, rfl, rfl⟩
  · subst h
    cases features with
    | none => exact ⟨rfl, rfl, rfl, rfl⟩
    | some buf => exact ⟨rfl, rfl, rfl, rfl⟩

/-- Witness for C4: a concrete call with a null feature buffer fails with
no runtime call. -/
theorem classifier_ffi_null_args_witness :
    ((none : Option (List Nat)) = none ∨ false = true) ∧
    (ei_run_classifier_ffi 0 (none : Option (List Nat)) false 0 ⟨none, 0⟩).status = -1 ∧
    (ei_run_classifier_ffi 0 (none : Option (List Nat)) false 0 ⟨none, 0⟩).runtimeCalls = 0 :=
  ⟨Or.inl rfl,
    (classifier_ffi_null_args 0 none false 0 ⟨none, 0⟩ (Or.inl rfl)).1,
    (classifier_ffi_null_args 0 none false 0 ⟨none, 0⟩ (Or.inl rfl)).2.2.1⟩

/-- C5: with non-null arguments, `ei_run_classifier_ffi` returns 0 exactly
when the external runtime returned `EI_IMPULSE_OK`; every other runtime
outcome is collapsed to the single failure status -1. -/
theorem classifier_ffi_status_collapse {α : Type} (runtimeErr : Int) (buf : List α)
    (debug : Int) (ctx : SignalCtx α) :
    ((ei_run_classifier_ffi runtimeErr (some buf) false debug ctx).status = 0 ↔
      runtimeErr = EI_IMPULSE_OK) ∧
    (ei_run_classifier_ffi runtimeErr (some buf) false debug ctx).status =
      (if runtimeErr = EI_IMPULSE_OK then 0 else -1) := by
  have hred : (ei_run_classifier_ffi runtimeErr (some buf) false debug ctx).status =
      (if runtimeErr = EI_IMPULSE_OK then 0 else -1) := rfl
  refine ⟨?_, hred⟩
  rw [hred]
  by_cases h : runtimeErr = EI_IMPULSE_OK
  · simp [h]
  · simp [h]

/-- Witness for C5: a concrete non-OK runtime outcome maps to -1, the OK
outcome maps to 0. -/
theorem classifier_ffi_status_collapse_witness :
    (ei_run_classifier_ffi 7 (some [1]) false 0 (⟨none, 0⟩ : SignalCtx Nat)).status = -1 ∧
    (ei_run_classifier_ffi 0 (some [1]) false 0 (⟨none, 0⟩ : SignalCtx Nat)).status = 0 := by
  constructor
  · rw [(classifier_ffi_status_collapse 7 [1] 0 (⟨none, 0⟩ : SignalCtx Nat)).2]
    decide
  · rw [(classifier_ffi_status_collapse 0 [1] 0 (⟨none, 0⟩ : SignalCtx Nat)).2]
    decide

/-- C6: `ei_get_classification_values` fails and writes nothing when the
result pointer or the output pointer is null; with both non-null it
returns 0, entry `i` of the output equals the `value` field of
`classification[i]` for every `i` below the label count, and the output
beyond the label count is unchanged. -/
theorem get_classification_values_spec {α : Type} (r : EiImpulseResult α) (out : List α)
    (outNull : Bool) :
    ei_get_classification_values (none : Option (EiImpulseResult α)) outNull out = (-1, out) ∧
    ei_get_classification_values (some r) true out = (-1, out) ∧
    (ei_get_classification_values (some r) false out).1 = 0 ∧
    (∀ i, i < EI_CLASSIFIER_LABEL_COUNT →
      ((ei_get_classification_values (some r) false out).2)[i]? =
        some (r.classification i).value) ∧
    ((ei_get_classification_values (some r) false out).2).drop EI_CLASSIFIER_LABEL_COUNT
      = out.drop EI_CLASSIFIER_LABEL_COUNT := by
  have hsrc : ((List.range EI_CLASSIFIER_LABEL_COUNT).map
      fun i => (r.classification i).value).length = EI_CLASSIFIER_LABEL_COUNT := by
    simp
  refine ⟨rfl, rfl, rfl, fun i hi => ?_, ?_⟩
  · show (copyInto out ((List.range EI_CLASSIFIER_LABEL_COUNT).map
        fun i => (r.classification i).value))[i]? = some (r.classification i).value
    unfold copyInto
    rw [List.getElem?_append_left (by rw [hsrc]; exact hi)]
    rw [List.getElem?_map, List.getElem?_range hi]
    rfl
  · show (copyInto out ((List.range EI_CLASSIFIER_LABEL_COUNT).map
        fun i => (r.classification i).value)).drop EI_CLASSIFIER_LABEL_COUNT
      = out.drop EI_CLASSIFIER_LABEL_COUNT
    unfold copyInto
    rw [List.drop_left' hsrc, hsrc]

/-- Witness for C6: a concrete extraction copies the four scores
index-for-index. -/
theorem get_classification_values_spec_witness :
    (2 : Nat) < EI_CLASSIFIER_LABEL_COUNT ∧
    ((ei_get_classification_values
        (some ⟨fun i => ⟨(i + 1) * 10⟩⟩ : Option (EiImpulseResult Nat))
        false [0, 0, 0, 0]).2)[2]? = some 30 := by
  refine ⟨by decide, ?_⟩
  have h := (get_classification_values_spec
    (⟨fun i => ⟨(i + 1) * 10⟩⟩ : EiImpulseResult Nat) [0, 0, 0, 0] false).2.2.2.1
    2 (by decide)
  rw [h]

/-- C7: a pull request arriving when no context is active (the
thread-local data pointer is null) returns the error sentinel and leaves
both the destination buffer and the context untouched. -/
theorem signal_callback_no_context {α : Type} (size offset length : Nat) (dest : List α) :
    signal_get_data_callback (⟨none, size⟩ : SignalCtx α) offset length dest
      = ⟨-1, ⟨none, size⟩, dest⟩ := rfl

/-- C8: a negative sleep duration is a no-op that reports `EI_IMPULSE_OK`
without invoking the platform delay. -/
theorem ei_sleep_negative_noop (time_ms : Int) (h : time_ms < 0) :
    ei_sleep time_ms = (EI_IMPULSE_OK, 0) := by
  unfold ei_sleep
  rw [if_pos h]

/-- Witness for C8: sleeping for -5 ms returns success with no delay. -/
theorem ei_sleep_negative_noop_witness :
    (-5 : Int) < 0 ∧ ei_sleep (-5) = (EI_IMPULSE_OK, 0) :=
  ⟨by decide, ei_sleep_negative_noop (-5) (by decide)⟩

set_option maxRecDepth 8000 in
/-- Counterexample for C9: a 256-character message meets the buffer bound,
and `ei_printf` does not route it anywhere — the `len < sizeof(buffer)`
guard fails and `ESP_LOGI` is never reached, contradicting the claim that
such a message is still logged in truncated form. -/
theorem ei_printf_overlong_not_logged_cex :
    EI_PRINTF_BUFSIZE ≤ (List.replicate 256 'a').length ∧
    ei_printf (List.replicate 256 'a') = none := by
  exact ⟨by decide, by decide⟩

/-- C9 (amended): a message whose formatted length meets or exceeds the
fixed buffer length is dropped entirely — nothing reaches the platform
logging facility; only messages of positive length strictly below the
bound are routed, and those are routed in full. -/
theorem ei_printf_bounded_drop (msg : List Char) :
    (EI_PRINTF_BUFSIZE ≤ msg.length → ei_printf msg = none) ∧
    (0 < msg.length → msg.length < EI_PRINTF_BUFSIZE → ei_printf msg = some msg) := by
  constructor
  · intro h
    unfold ei_printf
    rw [if_neg (by omega)]
  · intro h1 h2
    unfold ei_printf
    rw [if_pos ⟨h1, h2⟩]
    rw [List.take_of_length_le (by omega)]

set_option maxRecDepth 8000 in
/-- Witness for C9 (amended): a concrete 300-character message is dropped. -/
theorem ei_printf_bounded_drop_witness :
    EI_PRINTF_BUFSIZE ≤ (List.replicate 300 'b').length ∧
    ei_printf (List.replicate 300 'b') = none :=
  ⟨by decide, (ei_printf_bounded_drop (List.replicate 300 'b')).1 (by decide)⟩

/-- C10: the signal read callback never modifies the thread-local
context: whether it fails (no context, out of bounds) or succeeds, the
context after the call equals the context before it. -/
theorem signal_callback_preserves_context {α : Type} (ctx : SignalCtx α)
    (offset length : Nat) (dest : List α) :
    (signal_get_data_callback ctx offset length dest).ctx = ctx := by
  rcases ctx with ⟨data, size⟩
  cases data with
  | none => rfl
  | some buf =>
    rw [signal_get_data_callback_some]
    split <;> rfl
